/-
Verification of the LangFlow playground lifecycle manager and workflow
interpreter (backend/app/services).  Each Python function the claims touch is
shallowly embedded as an executable Lean definition; external collaborators
(the Docker engine client, subprocess spawning, the AI/report services) are
modelled as oracle parameters, and the JSON stores as in-memory lists with the
exact upsert/delete semantics of storage.py.
-/
import Mathlib

set_option maxRecDepth 4000

namespace LangFlow

/-! ## Port allocator (playground_service.create_instance, lines 205-240)

The service collects a `used_ports` set from every in-memory instance's three
ports plus the host ports of engine containers carrying the
`langflow.playground.id` label, then linearly probes upward from a fixed base
per kind (ssh 2222, docker 2376, web 8080).  The set is *not* extended with the
freshly chosen ports between the three scans. -/

/-- Structural engine of the `while port in used_ports: port += 1` probe loop.
The fuel argument is instantiated below with `max used + 1 - start`, which is
exactly the quantity the loop decreases (each collision forces
`start ≤ max used`), so `findFreePort` computes precisely what the unbounded
`while` loop computes; `findFreePort_eq` below proves the loop recurrence. -/
def findFreePortAux (used : List Nat) : Nat → Nat → Nat
  | 0, start => start
  | fuel + 1, start =>
    if start ∈ used then findFreePortAux used fuel (start + 1) else start

/-- The `while port in used_ports: port += 1` probe loop of `create_instance`. -/
def findFreePort (used : List Nat) (start : Nat) : Nat :=
  findFreePortAux used (used.foldr max 0 + 1 - start) start

/-- An instance's three allocated host ports. -/
structure PortTriple where
  ssh_port : Nat
  docker_port : Nat
  web_port : Nat
deriving DecidableEq, Repr

/-- The `used_ports` set: every port of every in-memory instance plus every
host port bound by a labelled engine container that the listing reported
(lines 206-227; a failed listing is logged and swallowed at lines 226-227, so
`enginePorts` holds only what was actually collected). -/
def usedPortsOf (instances : List PortTriple) (enginePorts : List Nat) : List Nat :=
  (instances.foldr (fun t acc => t.ssh_port :: t.docker_port :: t.web_port :: acc) []) ++
    enginePorts

/-- The three port scans of `create_instance` (lines 229-240): each kind starts
from its fixed base and skips ports in `used_ports`; the set is never updated
between the scans. -/
def allocatePorts (instances : List PortTriple) (enginePorts : List Nat) : PortTriple :=
  let used := usedPortsOf instances enginePorts
  { ssh_port := findFreePort used 2222
    docker_port := findFreePort used 2376
    web_port := findFreePort used 8080 }

/-- One completed sequential creation: allocate ports against the current map
and insert the new instance (line 266), with the engine listing contributing no
extra ports (containers are created later in a background task). -/
def createStep (instances : List PortTriple) : List PortTriple :=
  instances ++ [allocatePorts instances []]

/-- The in-memory map's port triples after `n` sequential creations starting
from an empty map. -/
def iterCreate : Nat → List PortTriple
  | 0 => []
  | n + 1 => createStep (iterCreate n)

/-- The port triples assigned by the first creations: the `i`-th sequential
creation receives `(2222 + i, 2376 + i, 8080 + i)` as long as the ssh scan has
not yet run into the docker range. -/
def seqTriple (i : Nat) : PortTriple :=
  { ssh_port := 2222 + i, docker_port := 2376 + i, web_port := 8080 + i }


/-! ## Data model (models.py), engine and service state

Timestamps are integer microseconds since the epoch (`datetime` values);
float-valued fields are modelled as rationals; `status` fields keep the
source's literal strings. -/

/-- models.PlaygroundInstance. -/
structure PlaygroundInstance where
  id : String
  name : String
  container_id : String
  ssh_port : Nat
  docker_port : Nat
  web_port : Nat
  status : String
  created_at : Int
  expires_at : Int
  last_activity : Int
  environment : List (String × String)
  resource_limits : List (String × String)
deriving DecidableEq, Repr

/-- models.PlaygroundCommand. -/
structure PlaygroundCommand where
  command : String
  working_dir : Option String
  environment : Option (List (String × String))
deriving DecidableEq, Repr

/-- models.PlaygroundStats. -/
structure PlaygroundStats where
  cpu_usage : ℚ
  memory_usage : ℚ
  memory_limit : Int
  disk_usage : ℚ
  network_rx : Int
  network_tx : Int
  uptime : Int
  containers_count : Nat
deriving DecidableEq, Repr

/-- A container as seen through the Docker client: its id, the value of its
`langflow.playground.id` label when present, and its engine status string. -/
structure ContainerInfo where
  cid : String
  labelId : Option String
  status : String
deriving DecidableEq, Repr

/-- Engine-side state: labelled containers and named volumes. -/
structure Engine where
  containers : List ContainerInfo
  volumes : List String
deriving DecidableEq, Repr

/-- The playground service's world: the in-memory `instances` dict, the JSON
store contents (storage.py) and the engine state. -/
structure ServiceState where
  instances : List (String × PlaygroundInstance)
  store : List PlaygroundInstance
  engine : Engine
deriving DecidableEq, Repr

/-- Dict lookup `self.instances.get(instance_id)`. -/
def mapLookup : List (String × PlaygroundInstance) → String → Option PlaygroundInstance
  | [], _ => none
  | p :: rest, k => if p.1 = k then some p.2 else mapLookup rest k

/-- Dict deletion `del self.instances[instance_id]`. -/
def mapErase : List (String × PlaygroundInstance) → String → List (String × PlaygroundInstance)
  | [], _ => []
  | p :: rest, k => if p.1 = k then mapErase rest k else p :: mapErase rest k

/-- Mutation of the instance object aliased by an existing dict entry (Python
updates the shared object in place; an absent key is left untouched). -/
def mapSet : List (String × PlaygroundInstance) → String → PlaygroundInstance →
    List (String × PlaygroundInstance)
  | [], _, _ => []
  | p :: rest, k, v => if p.1 = k then (k, v) :: mapSet rest k v else p :: mapSet rest k v

/-- storage.save_playground_instance (lines 133-143): replace the first record
with the same id, else append. -/
def storeSave : List PlaygroundInstance → PlaygroundInstance → List PlaygroundInstance
  | [], inst => [inst]
  | x :: rest, inst => if x.id = inst.id then inst :: rest else x :: storeSave rest inst

/-- storage.delete_playground_instance (lines 147-155): keep records with a
different id. -/
def storeDelete : List PlaygroundInstance → String → List PlaygroundInstance
  | [], _ => []
  | x :: rest, iid => if x.id = iid then storeDelete rest iid else x :: storeDelete rest iid

/-- storage.get_playground_instance (lines 125-130): first record with the id. -/
def storeGet : List PlaygroundInstance → String → Option PlaygroundInstance
  | [], _ => none
  | x :: rest, iid => if x.id = iid then some x else storeGet rest iid

/-- Python's whitespace test used by str.strip / str.split handling. -/
def isSpaceChar (c : Char) : Bool :=
  c = ' ' || c = '\t' || c = '\n' || c = '\r'

def dropLeadingSpace : List Char → List Char
  | [] => []
  | c :: rest => if isSpaceChar c then dropLeadingSpace rest else c :: rest

/-- Python `str.strip()`: drop leading and trailing whitespace. -/
def pyStrip (s : String) : String :=
  ⟨(dropLeadingSpace (dropLeadingSpace s.data).reverse).reverse⟩

/-- Python `str.split('\n')`: `"".split('\n') == [""]`. -/
def splitOnNl : List Char → List (List Char)
  | [] => [[]]
  | c :: rest =>
    if c = '\n' then [] :: splitOnNl rest
    else
      match splitOnNl rest with
      | [] => [[c]]
      | g :: gs => (c :: g) :: gs

/-- Decidable equality for Except results of the modelled client calls. -/
instance instExceptDecEq {ε α : Type} [DecidableEq ε] [DecidableEq α] :
    DecidableEq (Except ε α) := fun x y =>
  match x, y with
  | .error a, .error b =>
    match decEq a b with
    | isTrue h => isTrue (h ▸ rfl)
    | isFalse h => isFalse (fun hc => Except.noConfusion hc (fun hab => h hab))
  | .ok a, .ok b =>
    match decEq a b with
    | isTrue h => isTrue (h ▸ rfl)
    | isFalse h => isFalse (fun hc => Except.noConfusion hc (fun hab => h hab))
  | .error _, .ok _ => isFalse (fun hc => Except.noConfusion hc)
  | .ok _, .error _ => isFalse (fun hc => Except.noConfusion hc)

/-! ## Raw stats snapshot (docker `container.stats(stream=False)`)

Each `Option` field models presence of the corresponding key in the raw dict,
mirroring the `in` / `.get` guards of `get_instance_stats`. -/

structure RawCpuUsage where
  total_usage : Option Int
  percpu_usage : Option (List Int)
deriving DecidableEq, Repr

structure RawCpuStats where
  cpu_usage : Option RawCpuUsage
  system_cpu_usage : Option Int
deriving DecidableEq, Repr

structure RawMemoryStats where
  usage : Option Int
  limit : Option Int
deriving DecidableEq, Repr

structure RawNetIf where
  rx_bytes : Option Int
  tx_bytes : Option Int
deriving DecidableEq, Repr

structure RawStats where
  cpu_stats : Option RawCpuStats
  precpu_stats : Option RawCpuStats
  memory_stats : Option RawMemoryStats
  networks : Option (List RawNetIf)
deriving DecidableEq, Repr

/-- Oracle for the Docker client calls the service makes: `containers.get`
(plus `reload`), `exec_run` (command, optional working directory, returning
exit code and optional output bytes) and `stats(stream=False)`.  An
`Except.error` models the call raising, carrying `str(e)`. -/
structure DockerEnv where
  containers : String → Except String ContainerInfo
  exec : String → String → Option String → Except String (Int × Option String)
  rawStats : String → Except String RawStats

/-! ## Playground service operations (playground_service.py) -/

/-- PlaygroundService.get_instance (lines 779-781). -/
def get_instance (st : ServiceState) (iid : String) : Option PlaygroundInstance :=
  mapLookup st.instances iid

/-- Engine-side container removal by container id (`container.remove()`). -/
def removeContainersByCid : List ContainerInfo → String → List ContainerInfo
  | [], _ => []
  | c :: rest, cid =>
    if c.cid = cid then removeContainersByCid rest cid else c :: removeContainersByCid rest cid

/-- Engine-side named-volume removal (`volume.remove()`, `NotFound` tolerated). -/
def removeVolume : List String → String → List String
  | [], _ => []
  | v :: rest, name => if v = name then removeVolume rest name else v :: removeVolume rest name

/-- PlaygroundService.delete_instance (lines 1102-1147): for an unknown id
return False without touching anything; otherwise stop/remove the container
(errors tolerated), remove the two named volumes, delete the map entry and the
store record, and return True. -/
def delete_instance (st : ServiceState) (iid : String) : ServiceState × Bool :=
  match mapLookup st.instances iid with
  | none => (st, false)
  | some inst =>
    let e1 : Engine :=
      { st.engine with containers := removeContainersByCid st.engine.containers inst.container_id }
    let vols := removeVolume (removeVolume e1.volumes ("langflow-playground-" ++ iid ++ "-docker")) ("langflow-playground-" ++ iid ++ "-workspace")
    let e2 : Engine := { e1 with volumes := vols }
    ({ instances := mapErase st.instances iid, store := storeDelete st.store iid, engine := e2 }, true)

/-- One orphan removal (lines 872-891): stop and remove the container, then the
two named volumes derived from its label-embedded id. -/
def removeOrphan (e : Engine) (c : ContainerInfo) (l : String) : Engine :=
  { containers := removeContainersByCid e.containers c.cid
    volumes := removeVolume (removeVolume e.volumes ("langflow-playground-" ++ l ++ "-docker")) ("langflow-playground-" ++ l ++ "-workspace") }

/-- The loop body of cleanup_orphaned_containers: the guard
`if container_instance_id and container_instance_id not in known_instance_ids`
(line 871) skips containers whose label value is missing or the empty string
(Python truthiness). -/
def orphanStep (known : List String) (e : Engine) (c : ContainerInfo) : Engine :=
  match c.labelId with
  | some l => if l ≠ "" ∧ l ∉ known then removeOrphan e c l else e
  | none => e

/-- PlaygroundService.cleanup_orphaned_containers (lines 858-897): iterate over
the engine's labelled containers and remove the removable ones. -/
def cleanup_orphaned_containers (st : ServiceState) : ServiceState :=
  let known := st.instances.map (fun p => p.1)
  { st with engine := st.engine.containers.foldl (orphanStep known) st.engine }

/-- PlaygroundService._check_container_status (lines 112-138): empty container
reference or a failing `containers.get` yield "error"; a non-running container
yields its engine status; a running one is probed with `docker version`
("running" on exit 0, "installing" otherwise, also when the probe raises). -/
def check_container_status (env : DockerEnv) (inst : PlaygroundInstance) : String :=
  if inst.container_id = "" then "error"
  else
    match env.containers inst.container_id with
    | .error _ => "error"
    | .ok c =>
      if c.status ≠ "running" then c.status
      else
        match env.exec c.cid "docker version" none with
        | .ok (code, _) => if code = 0 then "running" else "installing"
        | .error _ => "installing"

/-- PlaygroundService.refresh_instance_status (lines 789-812): recompute via
`_check_container_status` and persist when the status changed. -/
def refresh_instance_status (st : ServiceState) (env : DockerEnv) (iid : String) :
    ServiceState × Bool :=
  match mapLookup st.instances iid with
  | none => (st, false)
  | some inst =>
    let new_status := check_container_status env inst
    if inst.status ≠ new_status then
      let inst1 := { inst with status := new_status }
      ({ st with instances := mapSet st.instances iid inst1, store := storeSave st.store inst1 }, true)
    else (st, true)

/-- PlaygroundService._update_instance_status (lines 814-856), the list-time
reconciliation path; the given instance aliases its map entry, so a mutation is
reflected through `mapSet`.  A failing `containers.get` is the NotFound branch
(lines 848-851). -/
def update_instance_status (st : ServiceState) (env : DockerEnv) (inst : PlaygroundInstance) :
    ServiceState × PlaygroundInstance :=
  if inst.container_id = "" then
    if inst.status ≠ "creating" ∧ inst.status ≠ "error" then
      let inst1 := { inst with status := "error" }
      ({ st with instances := mapSet st.instances inst.id inst1, store := storeSave st.store inst1 }, inst1)
    else (st, inst)
  else
    match env.containers inst.container_id with
    | .error _ =>
      if inst.status ≠ "error" then
        let inst1 := { inst with status := "error" }
        ({ st with instances := mapSet st.instances inst.id inst1, store := storeSave st.store inst1 }, inst1)
      else (st, inst)
    | .ok c =>
      let new_status :=
        if c.status = "running" then
          if inst.status = "installing" then
            match env.exec c.cid "docker version" none with
            | .ok (code, _) => if code = 0 then "running" else "installing"
            | .error _ => "installing"
          else "running"
        else if c.status = "exited" then "stopped"
        else "error"
      if inst.status ≠ new_status then
        let inst1 := { inst with status := new_status }
        ({ st with instances := mapSet st.instances inst.id inst1, store := storeSave st.store inst1 }, inst1)
      else (st, inst)

/-- The command string execute_command runs (lines 914-916): a `cd` prefix when
a truthy working directory is requested. -/
def execCommandText (cmd : PlaygroundCommand) : String :=
  match cmd.working_dir with
  | some wd => if wd = "" then cmd.command else "cd " ++ wd ++ " && " ++ cmd.command
  | none => cmd.command

/-- PlaygroundService.execute_command (lines 899-931): unknown id gives None;
any Docker failure gives None (the broad except); otherwise the command is run
with a `cd` prefix when a working directory is requested, `last_activity` is
updated on the shared instance object, and the decoded output is returned as-is
(no status validation, no exit-code handling). -/
def execute_command (st : ServiceState) (env : DockerEnv) (now : Int) (iid : String)
    (cmd : PlaygroundCommand) : ServiceState × Option String :=
  match mapLookup st.instances iid with
  | none => (st, none)
  | some inst =>
    match env.containers inst.container_id with
    | .error _ => (st, none)
    | .ok c =>
      match env.exec c.cid (execCommandText cmd) cmd.working_dir with
      | .error _ => (st, none)
      | .ok (_, out) =>
        let inst1 := { inst with last_activity := now }
        ({ st with instances := mapSet st.instances iid inst1 }, some (out.getD ""))

/-- Oracle for one provisioning attempt: the outcome of
`client.containers.run(**config)` (a new container id or an exception) and of
`_wait_for_container_ready` for that container. -/
structure ProvisionEnv where
  createContainer : Except String String
  waitReady : String → Except String Unit

/-- PlaygroundService._create_container (lines 281-726) as a state transition.
On create failure the inner handler (lines 677-691) marks error, persists and
deletes the map entry, and the re-raise falls through the outer handler
(lines 706-726) with no container to clean.  On readiness failure the outer
handler marks error, persists, best-effort removes the partially created
container, and deletes the map entry. -/
def create_container (st : ServiceState) (env : ProvisionEnv) (inst : PlaygroundInstance) :
    ServiceState × Except String PlaygroundInstance :=
  match env.createContainer with
  | .error e =>
    let inst1 := { inst with status := "error" }
    ({ st with store := storeSave st.store inst1, instances := mapErase st.instances inst.id }, .error e)
  | .ok cid =>
    let newC : ContainerInfo := { cid := cid, labelId := some inst.id, status := "running" }
    let e1 : Engine := { st.engine with containers := st.engine.containers ++ [newC] }
    let inst1 := { inst with container_id := cid }
    let st1 : ServiceState := { instances := mapSet st.instances inst.id inst1, store := storeSave st.store inst1, engine := e1 }
    match env.waitReady cid with
    | .ok _ =>
      let inst2 := { inst1 with status := "running" }
      ({ st1 with instances := mapSet st1.instances inst.id inst2, store := storeSave st1.store inst2 }, .ok inst2)
    | .error e =>
      let inst2 := { inst1 with status := "error" }
      let e2 : Engine := { e1 with containers := removeContainersByCid e1.containers cid }
      ({ instances := mapErase st1.instances inst.id, store := storeSave st1.store inst2, engine := e2 }, .error e)

/-! ## Statistics (get_instance_stats, lines 933-1078) -/

/-- Python's built-in round() (half to even) on a rational. -/
def roundHalfEven (q : ℚ) : Int :=
  let f := ⌊q⌋
  let r := q - f
  if r < 1/2 then f
  else if 1/2 < r then f + 1
  else if 2 ∣ f then f else f + 1

/-- `round(x, 1)`. -/
def round1 (q : ℚ) : ℚ := (roundHalfEven (q * 10) : ℚ) / 10

/-- CPU percentage (lines 986-1011): requires both tick counters and both
system counters; cores default to 1 (`get('percpu_usage', [1])`, a zero-length
list also giving 1); a non-positive system delta leaves 0; the ratio is clamped
to `[0, 100 * cores]`. -/
def computeCpuUsage (s : RawStats) : ℚ :=
  match s.cpu_stats, s.precpu_stats with
  | some cs, some ps =>
    match cs.cpu_usage, ps.cpu_usage with
    | some cu, some pu =>
      match cu.total_usage, pu.total_usage, cs.system_cpu_usage, ps.system_cpu_usage with
      | some ct, some pt, some csys, some psys =>
        let cpu_delta : Int := ct - pt
        let system_delta : Int := csys - psys
        let num_cpus : Nat :=
          match cu.percpu_usage with
          | some l => if l.length = 0 then 1 else l.length
          | none => 1
        if 0 < system_delta then
          min (max (((cpu_delta : ℚ) / (system_delta : ℚ)) * num_cpus * 100) 0) (100 * num_cpus)
        else 0
      | _, _, _, _ => 0
    | _, _ => 0
  | _, _ => 0

/-- Memory percentage and limit (lines 1014-1028): both `usage` and `limit`
must be present; the limit is reported as-is, the percentage only for a
positive limit, clamped to `[0, 100]`. -/
def computeMemory (s : RawStats) : ℚ × Int :=
  match s.memory_stats with
  | some ms =>
    match ms.usage, ms.limit with
    | some used, some limit =>
      if 0 < limit then (min (max (((used : ℚ) / (limit : ℚ)) * 100) 0) 100, limit)
      else (0, limit)
    | _, _ => (0, 0)
  | none => (0, 0)

/-- Network byte sums over all reported interfaces (lines 1031-1043). -/
def computeNetwork (s : RawStats) : Int × Int :=
  match s.networks with
  | some ifs =>
    ifs.foldl (fun acc i => (acc.1 + i.rx_bytes.getD 0, acc.2 + i.tx_bytes.getD 0)) (0, 0)
  | none => (0, 0)

/-- Nested-container count from `docker ps -q` inside the sandbox
(lines 1046-1054): exit 0 with non-empty output counts the non-blank lines. -/
def countContainers (r : Except String (Int × Option String)) : Nat :=
  match r with
  | .ok (code, some out) =>
    if code = 0 ∧ out ≠ "" then
      ((splitOnNl (pyStrip out).data).filter (fun l => l.any (fun c => !isSpaceChar c))).length
    else 0
  | _ => 0

/-- All-zero stats record with the given uptime. -/
def zeroStats (uptime : Int) : PlaygroundStats :=
  { cpu_usage := 0, memory_usage := 0, memory_limit := 0, disk_usage := 0, network_rx := 0, network_tx := 0, uptime := uptime, containers_count := 0 }

/-- `int((utcnow - created_at).total_seconds())`, timestamps in microseconds. -/
def uptimeOf (now created : Int) : Int := (now - created).tdiv 1000000

/-- PlaygroundService.get_instance_stats (lines 933-1078): an unknown id raises
ValueError; an empty container reference, a failing/non-running container or a
failing stats fetch give all-zero stats; otherwise each metric is computed
independently from its own raw fields, rounded to one decimal where the source
rounds. -/
def get_instance_stats (st : ServiceState) (env : DockerEnv) (now : Int) (iid : String) :
    Except String PlaygroundStats :=
  match mapLookup st.instances iid with
  | none => .error ("Instance " ++ iid ++ " not found")
  | some inst =>
    let uptime := uptimeOf now inst.created_at
    if inst.container_id = "" then .ok (zeroStats uptime)
    else
      match env.containers inst.container_id with
      | .error _ => .ok (zeroStats uptime)
      | .ok c =>
        if c.status ≠ "running" then .ok (zeroStats uptime)
        else
          match env.rawStats inst.container_id with
          | .error _ => .ok (zeroStats uptime)
          | .ok s =>
            .ok { cpu_usage := round1 (computeCpuUsage s)
                  memory_usage := round1 (computeMemory s).1
                  memory_limit := (computeMemory s).2
                  disk_usage := 0
                  network_rx := (computeNetwork s).1
                  network_tx := (computeNetwork s).2
                  uptime := uptime
                  containers_count := countContainers (env.exec c.cid "docker ps -q" none) }


/-! ## Command executor (command_executor.py) -/

/-- A completed `subprocess.run` (text mode). -/
structure HostProcResult where
  stdout : String
  stderr : String
  returncode : Int
deriving DecidableEq, Repr

/-- Outcome of spawning a host process: completion, or `TimeoutExpired` with
the partial stdout captured so far (`e.stdout or ''`). -/
inductive HostRunOutcome
  | completed (r : HostProcResult)
  | timedOut (partialOut : String)
deriving DecidableEq, Repr

/-- run_command's host branch (lines 16-36): stderr is appended under a marker,
a non-zero return code is appended as an explicit `[exit_code]=` marker (no
exception is raised for it), and the result is stripped; a timeout yields a
descriptive message with the partial output. -/
def run_command_host (spawn : String → Option String → HostRunOutcome) (command : String)
    (cwd : Option String) (timeout_seconds : Nat) : String :=
  match spawn command cwd with
  | .timedOut p =>
    "Command timed out after " ++ toString timeout_seconds ++ "s. Partial output: " ++ p
  | .completed r =>
    let output := r.stdout ++ (if r.stderr ≠ "" then "\n[stderr]\n" ++ r.stderr else "")
    let output :=
      if r.returncode ≠ 0 then output ++ "\n[exit_code]=" ++ toString r.returncode else output
    pyStrip output

/-- run_command_in_playground (lines 39-138): every failure branch is returned
as a distinct descriptive error string, never raised; a non-zero exit code is
appended as an `[exit_code]=` marker; the output is stripped. -/
def run_command_in_playground (st : ServiceState) (env : DockerEnv) (command : String)
    (cwd : Option String) (pid : String) : String :=
  if pid = "" then "Error: Playground instance ID is required"
  else if pyStrip command = "" then "Error: Command cannot be empty"
  else
    match mapLookup st.instances pid with
    | none => "Error: Playground instance " ++ pid ++ " not found"
    | some inst =>
      if inst.status ≠ "running" then
        "Error: Playground instance " ++ pid ++ " is not running (status: " ++ inst.status ++ ")"
      else if inst.container_id = "" then
        "Error: Playground instance " ++ pid ++ " has no container ID"
      else
        match env.containers inst.container_id with
        | .error e => "Error: Could not access container " ++ inst.container_id ++ ": " ++ e
        | .ok c =>
          if c.status ≠ "running" then
            "Error: Container " ++ inst.container_id ++ " is not running (status: " ++ c.status ++ ")"
          else
            let workdir :=
              match cwd with
              | some w => if w = "" then "/playground" else w
              | none => "/playground"
            match env.exec c.cid command (some workdir) with
            | .error e => "Error executing command in container: " ++ e
            | .ok (code, out) =>
              let stdout := out.getD ""
              let output :=
                if code ≠ 0 then stdout ++ "\n[exit_code]=" ++ toString code else stdout
              pyStrip output

/-- run_command (lines 11-14): dispatch on the truthiness of
`playground_instance_id`. -/
def run_command (spawn : String → Option String → HostRunOutcome) (st : ServiceState)
    (env : DockerEnv) (command : String) (cwd : Option String) (timeout_seconds : Nat)
    (playground_instance_id : Option String) : String :=
  match playground_instance_id with
  | some p =>
    if p = "" then run_command_host spawn command cwd timeout_seconds
    else run_command_in_playground st env command cwd p
  | none => run_command_host spawn command cwd timeout_seconds

/-! ## Workflow interpreter (workflow_engine.py)

`run_workflow_sync` is modelled with an explicit clock (each `datetime.utcnow`
call returns the next tick), an event list standing for the stream manager's
publishes (streaming.py's `publish` catches every per-queue failure, so a
publish never raises), and a list of the snapshots written by `save_run`.
`on_log` is not supplied (the claims under verification fix it to None). -/

/-- The step `type` literal. -/
inductive StepType
  | ai
  | command
  | report
deriving DecidableEq, Repr

/-- One channel's entry in the dict returned by report_service.send_report. -/
structure ReportOutcome where
  success : Bool
  error : Option String
deriving DecidableEq, Repr

/-- A context value: step outputs are strings, report steps store the raw
results dict. -/
inductive CtxVal
  | str (s : String)
  | reportResults (r : List (String × ReportOutcome))
deriving DecidableEq, Repr

abbrev Context := List (String × CtxVal)

/-- Python dict assignment `ctx[k] = v`. -/
def ctxSet : Context → String → CtxVal → Context
  | [], k, v => [(k, v)]
  | p :: rest, k, v => if p.1 = k then (k, v) :: rest else p :: ctxSet rest k v

/-- The merge `{**context, **(step.inputs or {})}`. -/
def ctxMerge (ctx : Context) (inputs : List (String × CtxVal)) : Context :=
  inputs.foldl (fun acc p => ctxSet acc p.1 p.2) ctx

/-- models.AIModel. -/
structure AIModelCfg where
  model : String
  api_key : Option String
deriving DecidableEq, Repr

/-- models.ReportChannel (only the type tag matters to the interpreter). -/
structure ReportChannelCfg where
  ctype : String
deriving DecidableEq, Repr

/-- models.ReportConfig. -/
structure ReportConfig where
  channels : List ReportChannelCfg
  template : Option String
  subject : Option String
deriving DecidableEq, Repr

/-- models.PentestStep (`type` is a reserved word in Lean, hence `stype`). -/
structure PentestStep where
  id : String
  name : String
  stype : StepType
  prompt : Option String
  model : Option AIModelCfg
  command : Option String
  working_dir : Option String
  timeout_seconds : Nat
  report_config : Option ReportConfig
  inputs : List (String × CtxVal)
deriving DecidableEq, Repr

/-- models.Workflow (the fields the interpreter reads). -/
structure Workflow where
  id : String
  name : String
  steps : List PentestStep
deriving DecidableEq, Repr

/-- models.StepLog. -/
structure StepLog where
  step_id : String
  step_name : String
  step_type : StepType
  status : String
  started_at : Option Nat
  finished_at : Option Nat
  output : Option String
  error : Option String
deriving DecidableEq, Repr

/-- models.RunResult. -/
structure RunResult where
  run_id : String
  workflow_id : String
  status : String
  started_at : Nat
  finished_at : Option Nat
  context : Context
  logs : List StepLog
  playground_instance_id : Option String
deriving DecidableEq, Repr

/-- A stream-manager publish observed by subscribers. -/
inductive EngineEvent
  | progress (run_id : String) (current total : Nat) (step_name : String)
  | logEvent (run_id : String) (entry : StepLog)
deriving DecidableEq, Repr

/-- Interpreter-side effects: the utcnow clock, the published events, the
count of publish dispatches attempted so far, and the run snapshots written by
save_run. -/
structure EngineSt where
  clock : Nat
  events : List EngineEvent
  pubCalls : Nat
  saved : List RunResult
deriving DecidableEq, Repr

/-- One `datetime.utcnow()` call. -/
def tick (est : EngineSt) : Nat × EngineSt := (est.clock, { est with clock := est.clock + 1 })

/-- External collaborators of the interpreter: ai.render_prompt (total — it
falls back to the raw template on any failure), ai.run_ai_completion (prompt,
model name, api key; may raise), report_service.send_report (may raise through
`asyncio.run`), the subprocess spawn used by the host command path, the
playground service used by the sandbox command path, and the outcome of each
stream-publish dispatch.  `publishRaises n` is the outcome of the n-th publish
attempt on the run thread: the thread has no running event loop, so
`asyncio.get_running_loop()` raises and the dispatch goes through
`asyncio.run(stream_manager.publish…)` inside the `except RuntimeError:`
handler; that call can itself raise (streaming.py acquires the shared
`asyncio.Lock` outside any try, and the lock may be bound to a different
event loop), and a raise inside the handler is NOT caught by the sibling
`except Exception:` clause — it escapes. -/
structure WorkflowEnv where
  render : String → Context → String
  runAI : String → String → Option String → Except String String
  defaultModelName : Option String
  sendReport : ReportConfig → Context → Except String (List (String × ReportOutcome))
  spawn : String → Option String → HostRunOutcome
  pgState : ServiceState
  docker : DockerEnv
  publishRaises : Nat → Option String

/-- One stream-publish dispatch from the run thread (the try /
`except RuntimeError: asyncio.run(...)` / `except Exception` blocks at
workflow_engine.py lines 51-61, 66-76, 148-158 and 170-181).  When the
dispatch succeeds the event is delivered; when `asyncio.run` raises, nothing
is delivered and the exception escapes the block (see `WorkflowEnv`). -/
def publishEvent (env : WorkflowEnv) (ev : EngineEvent) (est : EngineSt) :
    EngineSt × Option String :=
  match env.publishRaises est.pubCalls with
  | some e => ({ est with pubCalls := est.pubCalls + 1 }, some e)
  | none => ({ est with pubCalls := est.pubCalls + 1, events := est.events ++ [ev] }, none)

/-- The outer exception handler of run_workflow_sync (lines 190-196): mark the
run error, stamp its finished_at, save it, and return it as it stands —
including any log still in status "running". -/
def outerHandler (result : RunResult) (est : EngineSt) : RunResult × EngineSt :=
  let (t, est1) := tick est
  let result1 := { result with status := "error", finished_at := some t }
  (result1, { est1 with saved := est1.saved ++ [result1] })

/-- `(step.model.model if step.model else None) or (os.getenv("DEFAULT_MODEL_NAME") or "gpt-4o-mini")`. -/
def resolveModelName (env : WorkflowEnv) (m : Option AIModelCfg) : String :=
  let fallback :=
    match env.defaultModelName with
    | some d => if d = "" then "gpt-4o-mini" else d
    | none => "gpt-4o-mini"
  match m with
  | some cfg => if cfg.model = "" then fallback else cfg.model
  | none => fallback

/-- The report step's output formatting (lines 117-130). -/
def reportOutput (results : List (String × ReportOutcome)) : String :=
  let successful := (results.filter (fun p => p.2.success)).map (fun p => p.1)
  let failed := (results.filter (fun p => !p.2.success)).map (fun p => p.1)
  let lines1 :=
    if successful ≠ [] then ["✅ Successfully sent to: " ++ String.intercalate ", " successful]
    else []
  let lines2 :=
    if failed ≠ [] then
      ("❌ Failed to send to: " ++ String.intercalate ", " failed) ::
        failed.map (fun ch =>
          "  - " ++ ch ++ ": " ++ (((results.lookup ch).bind (fun o => o.error)).getD "Unknown error"))
    else []
  String.intercalate "\n" (lines1 ++ lines2)

/-- The body of the per-step `try` (lines 81-136): dispatch on the step type,
producing the output string and the context updates, or the exception text.
The two asserts fail on a missing or empty (falsy) field. -/
def stepBody (env : WorkflowEnv) (pid : Option String) (ctx : Context) (step : PentestStep) :
    Except String (String × Context) :=
  match step.stype with
  | .ai =>
    match step.prompt with
    | none => .error "AI step requires 'prompt'"
    | some p =>
      if p = "" then .error "AI step requires 'prompt'"
      else
        let model_name := resolveModelName env step.model
        let api_key := step.model.bind (fun m => m.api_key)
        let prompt_text := env.render p (ctxMerge ctx step.inputs)
        match env.runAI prompt_text model_name api_key with
        | .error e => .error e
        | .ok output =>
          let ctx1 := ctxSet (ctxSet (ctxSet ctx step.id (.str output)) step.name (.str output)) "last_output" (.str output)
          .ok (output, ctx1)
  | .command =>
    match step.command with
    | none => .error "Command step requires 'command'"
    | some c =>
      if c = "" then .error "Command step requires 'command'"
      else
        let command_text := env.render c (ctxMerge ctx step.inputs)
        let output := run_command env.spawn env.pgState env.docker command_text step.working_dir step.timeout_seconds pid
        let ctx1 := ctxSet (ctxSet (ctxSet ctx step.id (.str output)) step.name (.str output)) "last_output" (.str output)
        .ok (output, ctx1)
  | .report =>
    match step.report_config with
    | none => .error "Report step requires 'report_config'"
    | some rc =>
      if rc.channels = [] then .error "Report step requires at least one channel"
      else
        match env.sendReport rc ctx with
        | .error e => .error e
        | .ok results =>
          let output := reportOutput results
          let ctx1 := ctxSet (ctxSet (ctxSet ctx step.id (.reportResults results)) step.name (.reportResults results)) "last_output" (.str output)
          .ok (output, ctx1)

/-- The step loop of run_workflow_sync (lines 48-200).  Per step: publish
progress; create the log in status "running" with its start tick and append it
(line 64); publish it; run the body.  On success mark the log success and, in
the `finally`, stamp and publish it; on failure mark it error with the
exception text, stamp it, publish it, save the partial run (line 165), then
the `finally` re-stamps and re-publishes — the run returns with the re-stamped
log while the earlier snapshot stays saved.  After the last step the run is
marked success, stamped and saved.  Every publish dispatch may raise (see
`publishEvent`); the progress and running-log publishes sit OUTSIDE the step
try/finally, so a raise there jumps straight to the outer handler — with the
just-appended log still "running"/unfinished in the second case; a raise in
the error-branch publish still runs the `finally` (re-stamp plus one more
publish attempt) before the outer handler; a raise in the `finally` publish
goes to the outer handler directly. -/
def runSteps (env : WorkflowEnv) (rid : String) (pid : Option String) (total : Nat) :
    List PentestStep → Nat → RunResult → EngineSt → RunResult × EngineSt
  | [], _, result, est =>
    let (t, est1) := tick est
    let result1 := { result with status := "success", finished_at := some t }
    (result1, { est1 with saved := est1.saved ++ [result1] })
  | step :: rest, idx, result, est =>
    match publishEvent env (.progress rid idx total step.name) est with
    | (est1, some _) => outerHandler result est1
    | (est1, none) =>
      let (t0, est2) := tick est1
      let log0 : StepLog := { step_id := step.id, step_name := step.name, step_type := step.stype, status := "running", started_at := some t0, finished_at := none, output := none, error := none }
      let result0 := { result with logs := result.logs ++ [log0] }
      match publishEvent env (.logEvent rid log0) est2 with
      | (est3, some _) => outerHandler result0 est3
      | (est3, none) =>
        match stepBody env pid result.context step with
        | .ok (out, ctx1) =>
          let (t1, est4) := tick est3
          let log1 := { log0 with status := "success", output := some out, finished_at := some t1 }
          let result1 := { result with context := ctx1, logs := result.logs ++ [log1] }
          match publishEvent env (.logEvent rid log1) est4 with
          | (est5, some _) => outerHandler result1 est5
          | (est5, none) => runSteps env rid pid total rest (idx + 1) result1 est5
        | .error e =>
          let (t1, est4) := tick est3
          let log1 := { log0 with status := "error", error := some e, finished_at := some t1 }
          let resultE := { result with status := "error", logs := result.logs ++ [log1] }
          match publishEvent env (.logEvent rid log1) est4 with
          | (est5, some _) =>
            let (t2, est6) := tick est5
            let log2 := { log1 with finished_at := some t2 }
            let resultE2 := { resultE with logs := result.logs ++ [log2] }
            match publishEvent env (.logEvent rid log2) est6 with
            | (est7, _) => outerHandler resultE2 est7
          | (est5, none) =>
            let est6 := { est5 with saved := est5.saved ++ [resultE] }
            let (t2, est7) := tick est6
            let log2 := { log1 with finished_at := some t2 }
            let resultE2 := { resultE with logs := result.logs ++ [log2] }
            match publishEvent env (.logEvent rid log2) est7 with
            | (est8, some _) => outerHandler resultE2 est8
            | (est8, none) => (resultE2, est8)

/-- run_workflow_sync (lines 17-201): build the running RunResult, seed the
context with the workflow metadata (and the playground id when truthy), then
run the steps. -/
def run_workflow_sync (env : WorkflowEnv) (workflow : Workflow) (context : Option Context)
    (rid : String) (playground_instance_id : Option String) : RunResult × EngineSt :=
  let est0 : EngineSt := { clock := 0, events := [], pubCalls := 0, saved := [] }
  let (t0, est1) := tick est0
  let ctx0 := context.getD []
  let ctx1 := ctxSet (ctxSet ctx0 "workflow_name" (.str workflow.name)) "workflow_id" (.str workflow.id)
  let ctx2 :=
    match playground_instance_id with
    | some p => if p = "" then ctx1 else ctxSet ctx1 "playground_instance_id" (.str p)
    | none => ctx1
  let result0 : RunResult := { run_id := rid, workflow_id := workflow.id, status := "running", started_at := t0, finished_at := none, context := ctx2, logs := [], playground_instance_id := playground_instance_id }
  runSteps env rid playground_instance_id workflow.steps.length workflow.steps 1 result0 est1


/-! ## Sample inputs used to instantiate the theorems -/

def emptyEngine : Engine := { containers := [], volumes := [] }

def emptyState : ServiceState := { instances := [], store := [], engine := emptyEngine }

/-- A Docker oracle in which every client call raises. -/
def noDocker : DockerEnv :=
  { containers := fun _ => .error "NotFound", exec := fun _ _ _ => .error "NotReady", rawStats := fun _ => .error "NoStats" }

def mkInstance (iid cid stat : String) : PlaygroundInstance :=
  { id := iid, name := "playground-" ++ iid, container_id := cid, ssh_port := 2222, docker_port := 2376, web_port := 8080, status := stat, created_at := 0, expires_at := 14400000000, last_activity := 0, environment := [], resource_limits := [] }

def defaultStepLog : StepLog :=
  { step_id := "", step_name := "", step_type := .command, status := "pending", started_at := none, finished_at := none, output := none, error := none }

/-- A raw snapshot with every metric present and well-formed. -/
def sampleRawStats : RawStats :=
  { cpu_stats := some { cpu_usage := some { total_usage := some 200, percpu_usage := some [0, 0] }, system_cpu_usage := some 1000 }
    precpu_stats := some { cpu_usage := some { total_usage := some 100, percpu_usage := none }, system_cpu_usage := some 500 }
    memory_stats := some { usage := some 512, limit := some 1024 }
    networks := some [{ rx_bytes := some 10, tx_bytes := some 20 }, { rx_bytes := none, tx_bytes := some 5 }] }

/-- Subprocess oracle: `echo A` prints "A" and exits 0; any other command
produces the given output and exit code with empty stderr. -/
def spawnWith (e2out : String) (rc : Int) : String → Option String → HostRunOutcome :=
  fun c _ =>
    if c = "echo A" then .completed { stdout := "A\n", stderr := "", returncode := 0 }
    else .completed { stdout := e2out, stderr := "", returncode := rc }

/-- A workflow environment with a literal template renderer (no placeholders),
unavailable AI/report collaborators, and the given subprocess oracle. -/
def envWith (e2out : String) (rc : Int) : WorkflowEnv :=
  { render := fun t _ => t, runAI := fun _ _ _ => .error "OPENAI_API_KEY is not set", defaultModelName := none, sendReport := fun _ _ => .error "unavailable", spawn := spawnWith e2out rc, pgState := emptyState, docker := noDocker, publishRaises := fun _ => none }

/-- As `envWith`, but the second publish dispatch — the one right after the
first step's log was appended in status "running" (lines 66-76) — raises. -/
def c10FailEnv : WorkflowEnv :=
  { envWith "" 1 with publishRaises := fun n => if n = 1 then some "RuntimeError: lock bound to a different event loop" else none }

def stepEchoA : PentestStep :=
  { id := "s1", name := "first", stype := .command, prompt := none, model := none, command := some "echo A", working_dir := none, timeout_seconds := 90, report_config := none, inputs := [] }

def stepFail : PentestStep :=
  { id := "s2", name := "second", stype := .command, prompt := none, model := none, command := some "false", working_dir := none, timeout_seconds := 90, report_config := none, inputs := [] }

/-- The claim's two-step workflow: `echo A`, then a command that exits non-zero. -/
def twoStepWorkflow : Workflow := { id := "wf1", name := "demo", steps := [stepEchoA, stepFail] }


def c3State : ServiceState :=
  { instances := [("i3", mkInstance "i3" "c3" "stopped")], store := [], engine := emptyEngine }

def c3Docker : DockerEnv :=
  { containers := fun cid => if cid = "c3" then .ok { cid := "c3", labelId := some "i3", status := "running" } else .error "NotFound", exec := fun _ _ _ => .ok (1, some "boom"), rawStats := fun _ => .error "NoStats" }

def c5Docker : DockerEnv :=
  { containers := fun cid => if cid = "c1" then .ok { cid := "c1", labelId := some "i1", status := "running" } else .error "NotFound", exec := fun _ _ _ => .ok (0, some "a\nb\n"), rawStats := fun _ => .ok { sampleRawStats with memory_stats := some { usage := some 512, limit := none } } }

def c9State : ServiceState :=
  { instances := [("i9", mkInstance "i9" "" "creating")], store := [mkInstance "i9" "" "creating"], engine := emptyEngine }


def c6Env : ProvisionEnv := { createContainer := .ok "cX", waitReady := fun _ => .error "timeout" }

def c6State : ServiceState :=
  { instances := [("i6", mkInstance "i6" "" "creating")], store := [mkInstance "i6" "" "creating"], engine := { containers := [{ cid := "c0", labelId := none, status := "running" }], volumes := [] } }

def orphanContainer : ContainerInfo := { cid := "corph", labelId := some "gone", status := "running" }

def keptContainer : ContainerInfo := { cid := "ckeep", labelId := some "i8", status := "running" }

def emptyLabelContainer : ContainerInfo := { cid := "c9", labelId := some "", status := "running" }

def c8State : ServiceState :=
  { instances := [("i8", mkInstance "i8" "ckeep" "running")], store := [], engine := { containers := [keptContainer, orphanContainer, emptyLabelContainer], volumes := ["langflow-playground-gone-docker", "langflow-playground-gone-workspace", "langflow-playground-i8-docker"] } }


def oneStepWorkflow : Workflow := { id := "wf2", name := "solo", steps := [stepEchoA] }

/-! ## Theorems about the port allocator -/

theorem mem_le_foldr_max (used : List Nat) (x : Nat) (hx : x ∈ used) :
    x ≤ used.foldr max 0 := by
  induction used with
  | nil => cases hx
  | cons b t ih =>
    rcases List.mem_cons.mp hx with h1 | h2
    · subst h1
      exact le_max_left _ _
    · exact le_trans (ih h2) (le_max_right _ _)

theorem findFreePortAux_not_mem (used : List Nat) (fuel start : Nat)
    (hb : ∀ x ∈ used, x < start + fuel) : findFreePortAux used fuel start ∉ used := by
  induction fuel generalizing start with
  | zero =>
    simp only [findFreePortAux]
    intro hmem
    have := hb _ hmem
    omega
  | succ f ih =>
    by_cases h : start ∈ used
    · simpa [findFreePortAux, h] using ih (start + 1) (fun x hx => by have := hb x hx; omega)
    · simp [findFreePortAux, h]

/-- The port returned by the probe loop is never one of the used ports. -/
theorem findFreePort_not_mem (used : List Nat) (start : Nat) :
    findFreePort used start ∉ used := by
  apply findFreePortAux_not_mem
  intro x hx
  have := mem_le_foldr_max used x hx
  omega

/-- `findFreePort` satisfies the recurrence of the source's `while` loop. -/
theorem findFreePort_eq (used : List Nat) (start : Nat) :
    findFreePort used start =
      if start ∈ used then findFreePort used (start + 1) else start := by
  unfold findFreePort
  by_cases h : start ∈ used
  · have hle : start ≤ used.foldr max 0 := mem_le_foldr_max used start h
    have hf : used.foldr max 0 + 1 - start = (used.foldr max 0 + 1 - (start + 1)) + 1 := by
      omega
    rw [hf]
    simp [findFreePortAux, h]
  · cases hf : used.foldr max 0 + 1 - start with
    | zero => simp [findFreePortAux, h]
    | succ f => simp [findFreePortAux, h]

theorem mem_foldr_ports (instances : List PortTriple) (x : Nat) :
    (x ∈ instances.foldr (fun t acc => t.ssh_port :: t.docker_port :: t.web_port :: acc) []) ↔
      ∃ t ∈ instances, x = t.ssh_port ∨ x = t.docker_port ∨ x = t.web_port := by
  induction instances with
  | nil => simp
  | cons a l ih =>
    simp only [List.foldr_cons, List.mem_cons, ih, List.mem_cons]
    constructor
    · rintro (h | h | h | ⟨t, ht, hx⟩)
      · exact ⟨a, Or.inl rfl, Or.inl h⟩
      · exact ⟨a, Or.inl rfl, Or.inr (Or.inl h)⟩
      · exact ⟨a, Or.inl rfl, Or.inr (Or.inr h)⟩
      · exact ⟨t, Or.inr ht, hx⟩
    · rintro ⟨t, ht | ht, hx⟩
      · subst ht
        rcases hx with h | h | h
        · exact Or.inl h
        · exact Or.inr (Or.inl h)
        · exact Or.inr (Or.inr (Or.inl h))
      · exact Or.inr (Or.inr (Or.inr ⟨t, ht, hx⟩))

theorem mem_usedPortsOf_iff (instances : List PortTriple) (enginePorts : List Nat) (x : Nat) :
    x ∈ usedPortsOf instances enginePorts ↔
      (∃ t ∈ instances, x = t.ssh_port ∨ x = t.docker_port ∨ x = t.web_port) ∨
        x ∈ enginePorts := by
  unfold usedPortsOf
  rw [List.mem_append, mem_foldr_ports]

/-- The probe loop lands exactly on the first gap: if every port in `[s, t)` is
used and `t` is free, the loop started at `s` returns `t`. -/
theorem findFreePort_eq_of (used : List Nat) (s t : Nat) (hst : s ≤ t)
    (hmem : ∀ y, s ≤ y → y < t → y ∈ used) (ht : t ∉ used) :
    findFreePort used s = t := by
  have key : ∀ d s2, s2 ≤ t → t - s2 = d → (∀ y, s2 ≤ y → y < t → y ∈ used) →
      findFreePort used s2 = t := by
    intro d
    induction d with
    | zero =>
      intro s2 h1 h2 _
      have hs2 : s2 = t := by omega
      subst hs2
      rw [findFreePort_eq, if_neg ht]
    | succ n ih =>
      intro s2 h1 h2 h3
      have hin : s2 ∈ used := h3 s2 le_rfl (by omega)
      rw [findFreePort_eq, if_pos hin]
      exact ih (s2 + 1) (by omega) (by omega) (fun y hy1 hy2 => h3 y (by omega) hy2)
  exact key (t - s) s hst rfl hmem

theorem mem_used_seq (k x : Nat) :
    x ∈ usedPortsOf ((List.range k).map seqTriple) [] ↔
      ∃ i, i < k ∧ (x = 2222 + i ∨ x = 2376 + i ∨ x = 8080 + i) := by
  rw [mem_usedPortsOf_iff]
  simp only [List.mem_map, List.mem_range, List.not_mem_nil, or_false, seqTriple]
  constructor
  · rintro ⟨t, ⟨i, hi, rfl⟩, hx⟩
    exact ⟨i, hi, hx⟩
  · rintro ⟨i, hi, hx⟩
    exact ⟨_, ⟨i, hi, rfl⟩, hx⟩

theorem allocate_seq (k : Nat) (hk : k ≤ 153) :
    allocatePorts ((List.range k).map seqTriple) [] = seqTriple k := by
  have hssh : findFreePort (usedPortsOf ((List.range k).map seqTriple) []) 2222 = 2222 + k := by
    apply findFreePort_eq_of _ _ _ (by omega)
    · intro y h1 h2
      rw [mem_used_seq]
      exact ⟨y - 2222, by omega, by omega⟩
    · rw [mem_used_seq]
      rintro ⟨i, hi, h | h | h⟩ <;> omega
  have hdocker : findFreePort (usedPortsOf ((List.range k).map seqTriple) []) 2376 = 2376 + k := by
    apply findFreePort_eq_of _ _ _ (by omega)
    · intro y h1 h2
      rw [mem_used_seq]
      exact ⟨y - 2376, by omega, by omega⟩
    · rw [mem_used_seq]
      rintro ⟨i, hi, h | h | h⟩ <;> omega
  have hweb : findFreePort (usedPortsOf ((List.range k).map seqTriple) []) 8080 = 8080 + k := by
    apply findFreePort_eq_of _ _ _ (by omega)
    · intro y h1 h2
      rw [mem_used_seq]
      exact ⟨y - 8080, by omega, by omega⟩
    · rw [mem_used_seq]
      rintro ⟨i, hi, h | h | h⟩ <;> omega
  simp only [allocatePorts]
  rw [hssh, hdocker, hweb]
  rfl

/-- At the 155th creation (154 instances in the map) the ssh scan, blocked by
the 154 ssh ports and then the 154 docker ports, lands on 2530 — exactly where
the docker scan lands too. -/
theorem allocate_155 :
    allocatePorts ((List.range 154).map seqTriple) [] =
      { ssh_port := 2530, docker_port := 2530, web_port := 8234 } := by
  have hssh : findFreePort (usedPortsOf ((List.range 154).map seqTriple) []) 2222 = 2530 := by
    apply findFreePort_eq_of _ _ _ (by omega)
    · intro y h1 h2
      rw [mem_used_seq]
      by_cases hy : y < 2376
      · exact ⟨y - 2222, by omega, by omega⟩
      · exact ⟨y - 2376, by omega, by omega⟩
    · rw [mem_used_seq]
      rintro ⟨i, hi, h | h | h⟩ <;> omega
  have hdocker : findFreePort (usedPortsOf ((List.range 154).map seqTriple) []) 2376 = 2530 := by
    apply findFreePort_eq_of _ _ _ (by omega)
    · intro y h1 h2
      rw [mem_used_seq]
      exact ⟨y - 2376, by omega, by omega⟩
    · rw [mem_used_seq]
      rintro ⟨i, hi, h | h | h⟩ <;> omega
  have hweb : findFreePort (usedPortsOf ((List.range 154).map seqTriple) []) 8080 = 8234 := by
    apply findFreePort_eq_of _ _ _ (by omega)
    · intro y h1 h2
      rw [mem_used_seq]
      exact ⟨y - 8080, by omega, by omega⟩
    · rw [mem_used_seq]
      rintro ⟨i, hi, h | h | h⟩ <;> omega
  simp only [allocatePorts]
  rw [hssh, hdocker, hweb]

/-- After `k ≤ 154` sequential creations from an empty map, the map holds
exactly the triples `(2222 + i, 2376 + i, 8080 + i)` for `i < k`. -/
theorem iterCreate_closed (k : Nat) (hk : k ≤ 154) :
    iterCreate k = (List.range k).map seqTriple := by
  induction k with
  | zero => rfl
  | succ n ih =>
    have hn : n ≤ 153 := by omega
    rw [iterCreate, createStep, ih (by omega), allocate_seq n hn, List.range_succ,
      List.map_append, List.map_singleton]

/-! ## Helper lemmas on maps, stores and engine lists -/

theorem mapLookup_mapErase_self (m : List (String × PlaygroundInstance)) (k : String) :
    mapLookup (mapErase m k) k = none := by
  induction m with
  | nil => rfl
  | cons p rest ih =>
    by_cases h : p.1 = k
    · simpa [mapErase, h] using ih
    · simpa [mapErase, mapLookup, h] using ih

theorem storeGet_storeDelete_self (st : List PlaygroundInstance) (iid : String) :
    storeGet (storeDelete st iid) iid = none := by
  induction st with
  | nil => rfl
  | cons x rest ih =>
    by_cases h : x.id = iid
    · simpa [storeDelete, h] using ih
    · simpa [storeDelete, storeGet, h] using ih

theorem storeGet_storeSave_self (st : List PlaygroundInstance) (inst : PlaygroundInstance) :
    storeGet (storeSave st inst) inst.id = some inst := by
  induction st with
  | nil => simp [storeSave, storeGet]
  | cons x rest ih =>
    by_cases h : x.id = inst.id
    · simp [storeSave, h, storeGet]
    · simpa [storeSave, storeGet, h] using ih

theorem mapLookup_mapSet_self (m : List (String × PlaygroundInstance)) (k : String)
    (v : PlaygroundInstance) (x : PlaygroundInstance) (h : mapLookup m k = some x) :
    mapLookup (mapSet m k v) k = some v := by
  induction m with
  | nil => simp [mapLookup] at h
  | cons p rest ih =>
    by_cases hp : p.1 = k
    · simp [mapSet, hp, mapLookup]
    · rw [mapLookup, if_neg hp] at h
      simpa [mapSet, mapLookup, hp] using ih h

theorem mem_removeContainersByCid_iff (l : List ContainerInfo) (cid : String)
    (c : ContainerInfo) : c ∈ removeContainersByCid l cid ↔ c ∈ l ∧ c.cid ≠ cid := by
  induction l with
  | nil => simp [removeContainersByCid]
  | cons a rest ih =>
    by_cases h : a.cid = cid
    · rw [removeContainersByCid, if_pos h, ih]
      constructor
      · rintro ⟨h1, h2⟩
        exact ⟨List.mem_cons_of_mem _ h1, h2⟩
      · rintro ⟨h1, h2⟩
        rcases List.mem_cons.mp h1 with rfl | h3
        · exact absurd h h2
        · exact ⟨h3, h2⟩
    · rw [removeContainersByCid, if_neg h]
      constructor
      · intro hm
        rcases List.mem_cons.mp hm with rfl | h3
        · exact ⟨List.mem_cons_self _ _, h⟩
        · rcases ih.mp h3 with ⟨h4, h5⟩
          exact ⟨List.mem_cons_of_mem _ h4, h5⟩
      · rintro ⟨h1, h2⟩
        rcases List.mem_cons.mp h1 with rfl | h3
        · exact List.mem_cons_self _ _
        · exact List.mem_cons_of_mem _ (ih.mpr ⟨h3, h2⟩)

theorem mem_removeVolume_iff (l : List String) (name v : String) :
    v ∈ removeVolume l name ↔ v ∈ l ∧ v ≠ name := by
  induction l with
  | nil => simp [removeVolume]
  | cons a rest ih =>
    by_cases h : a = name
    · rw [removeVolume, if_pos h, ih]
      constructor
      · rintro ⟨h1, h2⟩
        exact ⟨List.mem_cons_of_mem _ h1, h2⟩
      · rintro ⟨h1, h2⟩
        rcases List.mem_cons.mp h1 with rfl | h3
        · exact absurd h h2
        · exact ⟨h3, h2⟩
    · rw [removeVolume, if_neg h]
      constructor
      · intro hm
        rcases List.mem_cons.mp hm with rfl | h3
        · exact ⟨List.mem_cons_self _ _, h⟩
        · rcases ih.mp h3 with ⟨h4, h5⟩
          exact ⟨List.mem_cons_of_mem _ h4, h5⟩
      · rintro ⟨h1, h2⟩
        rcases List.mem_cons.mp h1 with rfl | h3
        · exact List.mem_cons_self _ _
        · exact List.mem_cons_of_mem _ (ih.mpr ⟨h3, h2⟩)

/-! ## C1 — port allocation -/

/-- C1, counterexample: in the reachable state after 154 sequential completed
creations from an empty map, the 155th creation allocates
`ssh_port = docker_port = 2530`: the new instance's port triple is not pairwise
distinct, refuting the claim for this creation sequence. -/
theorem c1_counterexample :
    (allocatePorts (iterCreate 154) []).ssh_port = 2530 ∧
    (allocatePorts (iterCreate 154) []).docker_port = 2530 ∧
    (allocatePorts (iterCreate 154) []).ssh_port = (allocatePorts (iterCreate 154) []).docker_port := by
  rw [iterCreate_closed 154 (by omega), allocate_155]
  exact ⟨rfl, rfl, rfl⟩

/-- C1 (amended): every host port allocated to a new instance is distinct from
every port (ssh, docker, web) of every instance present in the in-memory map at
creation time, and from every engine-reported port that the container listing
actually contributed to used_ports (`enginePorts` — the source swallows a
failed listing at lines 226-227, in which case no engine ports are excluded);
pairwise distinctness of the new instance's own triple, however, does not hold
in general (see the counterexample). -/
theorem c1_allocated_ports_fresh (instances : List PortTriple) (enginePorts : List Nat)
    (t : PortTriple) (h : t ∈ instances) :
    ((allocatePorts instances enginePorts).ssh_port ≠ t.ssh_port ∧
      (allocatePorts instances enginePorts).ssh_port ≠ t.docker_port ∧
      (allocatePorts instances enginePorts).ssh_port ≠ t.web_port) ∧
    ((allocatePorts instances enginePorts).docker_port ≠ t.ssh_port ∧
      (allocatePorts instances enginePorts).docker_port ≠ t.docker_port ∧
      (allocatePorts instances enginePorts).docker_port ≠ t.web_port) ∧
    ((allocatePorts instances enginePorts).web_port ≠ t.ssh_port ∧
      (allocatePorts instances enginePorts).web_port ≠ t.docker_port ∧
      (allocatePorts instances enginePorts).web_port ≠ t.web_port) ∧
    ((allocatePorts instances enginePorts).ssh_port ∉ enginePorts ∧
      (allocatePorts instances enginePorts).docker_port ∉ enginePorts ∧
      (allocatePorts instances enginePorts).web_port ∉ enginePorts) := by
  have hs := findFreePort_not_mem (usedPortsOf instances enginePorts) 2222
  have hd := findFreePort_not_mem (usedPortsOf instances enginePorts) 2376
  have hw := findFreePort_not_mem (usedPortsOf instances enginePorts) 8080
  have m1 : t.ssh_port ∈ usedPortsOf instances enginePorts :=
    (mem_usedPortsOf_iff _ _ _).mpr (Or.inl ⟨t, h, Or.inl rfl⟩)
  have m2 : t.docker_port ∈ usedPortsOf instances enginePorts :=
    (mem_usedPortsOf_iff _ _ _).mpr (Or.inl ⟨t, h, Or.inr (Or.inl rfl)⟩)
  have m3 : t.web_port ∈ usedPortsOf instances enginePorts :=
    (mem_usedPortsOf_iff _ _ _).mpr (Or.inl ⟨t, h, Or.inr (Or.inr rfl)⟩)
  simp only [allocatePorts]
  refine ⟨⟨fun heq => hs (heq.symm ▸ m1), fun heq => hs (heq.symm ▸ m2),
          fun heq => hs (heq.symm ▸ m3)⟩,
         ⟨fun heq => hd (heq.symm ▸ m1), fun heq => hd (heq.symm ▸ m2),
          fun heq => hd (heq.symm ▸ m3)⟩,
         ⟨fun heq => hw (heq.symm ▸ m1), fun heq => hw (heq.symm ▸ m2),
          fun heq => hw (heq.symm ▸ m3)⟩,
         fun hin => hs ((mem_usedPortsOf_iff _ _ _).mpr (Or.inr hin)),
         fun hin => hd ((mem_usedPortsOf_iff _ _ _).mpr (Or.inr hin)),
         fun hin => hw ((mem_usedPortsOf_iff _ _ _).mpr (Or.inr hin))⟩

theorem c1_allocated_ports_fresh_witness :
    ((⟨2222, 2376, 8080⟩ : PortTriple) ∈ [(⟨2222, 2376, 8080⟩ : PortTriple)]) ∧
    (((allocatePorts [⟨2222, 2376, 8080⟩] [9000]).ssh_port ≠ 2222 ∧
      (allocatePorts [⟨2222, 2376, 8080⟩] [9000]).ssh_port ≠ 2376 ∧
      (allocatePorts [⟨2222, 2376, 8080⟩] [9000]).ssh_port ≠ 8080) ∧
     ((allocatePorts [⟨2222, 2376, 8080⟩] [9000]).docker_port ≠ 2222 ∧
      (allocatePorts [⟨2222, 2376, 8080⟩] [9000]).docker_port ≠ 2376 ∧
      (allocatePorts [⟨2222, 2376, 8080⟩] [9000]).docker_port ≠ 8080) ∧
     ((allocatePorts [⟨2222, 2376, 8080⟩] [9000]).web_port ≠ 2222 ∧
      (allocatePorts [⟨2222, 2376, 8080⟩] [9000]).web_port ≠ 2376 ∧
      (allocatePorts [⟨2222, 2376, 8080⟩] [9000]).web_port ≠ 8080) ∧
     ((allocatePorts [⟨2222, 2376, 8080⟩] [9000]).ssh_port ∉ [9000] ∧
      (allocatePorts [⟨2222, 2376, 8080⟩] [9000]).docker_port ∉ [9000] ∧
      (allocatePorts [⟨2222, 2376, 8080⟩] [9000]).web_port ∉ [9000])) :=
  ⟨by decide, c1_allocated_ports_fresh [⟨2222, 2376, 8080⟩] [9000] ⟨2222, 2376, 8080⟩ (by decide)⟩

/-! ## C7 — delete_instance -/

/-- C7: deleting an unknown id returns False and leaves the whole state (map,
store, engine) unchanged; deleting an existing id returns True and removes the
instance from both the in-memory map and the store, so a subsequent
get_instance (and store lookup) for that id returns none. -/
theorem c7_delete_instance_spec (st : ServiceState) (iid : String) :
    (get_instance st iid = none → delete_instance st iid = (st, false)) ∧
    (get_instance st iid ≠ none →
      (delete_instance st iid).2 = true ∧
      get_instance (delete_instance st iid).1 iid = none ∧
      storeGet (delete_instance st iid).1.store iid = none) := by
  unfold get_instance delete_instance
  cases h : mapLookup st.instances iid with
  | none => simp [h]
  | some inst =>
    simp only [h]
    constructor
    · intro hcontra
      exact absurd hcontra (by simp)
    · intro _
      exact ⟨trivial, mapLookup_mapErase_self _ _, storeGet_storeDelete_self _ _⟩

theorem c7_delete_instance_witness :
    (delete_instance { instances := [("i1", mkInstance "i1" "c1" "running")], store := [mkInstance "i1" "c1" "running"], engine := emptyEngine } "i1").2 = true ∧
    get_instance (delete_instance { instances := [("i1", mkInstance "i1" "c1" "running")], store := [mkInstance "i1" "c1" "running"], engine := emptyEngine } "i1").1 "i1" = none ∧
    storeGet (delete_instance { instances := [("i1", mkInstance "i1" "c1" "running")], store := [mkInstance "i1" "c1" "running"], engine := emptyEngine } "i1").1.store "i1" = none :=
  (c7_delete_instance_spec { instances := [("i1", mkInstance "i1" "c1" "running")], store := [mkInstance "i1" "c1" "running"], engine := emptyEngine } "i1").2 (by decide)

/-! ## C4 / C5 — statistics -/

theorem round1_zero : round1 0 = 0 := by
  unfold round1 roundHalfEven
  norm_num

theorem round1_forty : round1 40 = 40 := by
  unfold round1 roundHalfEven
  norm_num

theorem computeCpuUsage_mem_update (s : RawStats) (m : Option RawMemoryStats) :
    computeCpuUsage { s with memory_stats := m } = computeCpuUsage s := by
  cases s
  rfl

theorem computeNetwork_mem_update (s : RawStats) (m : Option RawMemoryStats) :
    computeNetwork { s with memory_stats := m } = computeNetwork s := by
  cases s
  rfl

theorem computeMemory_limit_missing (s : RawStats) (u : Option Int) :
    computeMemory { s with memory_stats := some { usage := u, limit := none } } = (0, 0) := by
  cases u
  · rfl
  · rfl

/-- C4: for an instance present in the map whose container reference is empty,
get_instance_stats never raises and returns the record with every numeric field
zero and uptime the whole-second difference between now and created_at. -/
theorem c4_stats_no_container (st : ServiceState) (env : DockerEnv) (now : Int) (iid : String)
    (inst : PlaygroundInstance) (h1 : mapLookup st.instances iid = some inst)
    (h2 : inst.container_id = "") :
    get_instance_stats st env now iid = .ok (zeroStats (uptimeOf now inst.created_at)) := by
  simp only [get_instance_stats, h1, h2]
  simp

theorem c4_stats_no_container_witness :
    get_instance_stats { instances := [("i1", mkInstance "i1" "" "creating")], store := [], engine := emptyEngine } noDocker 5500000 "i1" = .ok (zeroStats 5) := by
  have h := c4_stats_no_container { instances := [("i1", mkInstance "i1" "" "creating")], store := [], engine := emptyEngine } noDocker 5500000 "i1" (mkInstance "i1" "" "creating") (by decide) (by decide)
  rw [h]
  congr 1

/-- C5: for a raw snapshot whose memory_stats lacks the limit field, the stats
call still succeeds: only the memory metric is zeroed while the CPU
percentage, the network sums and the container count are computed exactly as
for the intact snapshot, each from its own raw fields. -/
theorem c5_stats_metric_independence (st : ServiceState) (env : DockerEnv) (now : Int)
    (iid : String) (inst : PlaygroundInstance) (c : ContainerInfo) (s : RawStats)
    (u : Option Int)
    (h1 : mapLookup st.instances iid = some inst)
    (h2 : inst.container_id ≠ "")
    (h3 : env.containers inst.container_id = .ok c)
    (h4 : c.status = "running")
    (h5 : env.rawStats inst.container_id = .ok { s with memory_stats := some { usage := u, limit := none } }) :
    get_instance_stats st env now iid =
      .ok { cpu_usage := round1 (computeCpuUsage s), memory_usage := 0, memory_limit := 0, disk_usage := 0, network_rx := (computeNetwork s).1, network_tx := (computeNetwork s).2, uptime := uptimeOf now inst.created_at, containers_count := countContainers (env.exec c.cid "docker ps -q" none) } := by
  simp only [get_instance_stats, h1, h2, h3, h4, h5]
  rw [computeCpuUsage_mem_update, computeNetwork_mem_update, computeMemory_limit_missing]
  simp [round1_zero]

theorem c5_stats_metric_independence_witness :
    get_instance_stats { instances := [("i1", mkInstance "i1" "c1" "running")], store := [], engine := emptyEngine } c5Docker 3000000 "i1" = .ok { cpu_usage := 40, memory_usage := 0, memory_limit := 0, disk_usage := 0, network_rx := 10, network_tx := 25, uptime := 3, containers_count := 2 } := by
  have h := c5_stats_metric_independence { instances := [("i1", mkInstance "i1" "c1" "running")], store := [], engine := emptyEngine } c5Docker 3000000 "i1" (mkInstance "i1" "c1" "running") { cid := "c1", labelId := some "i1", status := "running" } sampleRawStats (some 512) (by decide) (by decide) (by rfl) (by decide) (by rfl)
  rw [h]
  have hcpu : computeCpuUsage sampleRawStats = 40 := by
    simp only [computeCpuUsage, sampleRawStats]
    norm_num [min_def, max_def]
  rw [hcpu, round1_forty]
  simp only [Except.ok.injEq, PlaygroundStats.mk.injEq]
  exact ⟨trivial, trivial, trivial, trivial, by decide, by decide, by decide, by decide⟩

/-! ## C3 — the gateway's execute operation -/

/-- C3, counterexample: the instance is in status "stopped" and the command
exits with code 1, yet execute_command runs it anyway and returns the bare
output "boom" — no running-status validation and no exit-code marker. -/
theorem c3_counterexample :
    (mapLookup c3State.instances "i3").map (fun i => i.status) = some "stopped" ∧
    (execute_command c3State c3Docker 99 "i3" { command := "false", working_dir := none, environment := none }).2 = some "boom" := by
  constructor
  · decide
  · decide

/-- C3 (amended): execute_command validates only that the instance id is known
(returning a not-found None otherwise); whenever the container lookup and the
exec call succeed it returns the decoded output unchanged — regardless of the
instance's status and of the exit code, with no exit-code marker — and updates
the instance's last_activity.  (The running-status validation and the
`[exit_code]=` marker live in run_command_in_playground, not here.) -/
theorem c3_execute_command_spec (st : ServiceState) (env : DockerEnv) (now : Int) (iid : String)
    (cmd : PlaygroundCommand) :
    (mapLookup st.instances iid = none → execute_command st env now iid cmd = (st, none)) ∧
    (∀ inst c code out,
      mapLookup st.instances iid = some inst →
      env.containers inst.container_id = .ok c →
      env.exec c.cid (execCommandText cmd) cmd.working_dir = .ok (code, out) →
      (execute_command st env now iid cmd).2 = some (out.getD "") ∧
      mapLookup (execute_command st env now iid cmd).1.instances iid = some { inst with last_activity := now }) := by
  constructor
  · intro h
    simp [execute_command, h]
  · intro inst c code out h1 h2 h3
    simp only [execute_command, h1, h2, h3]
    exact ⟨trivial, mapLookup_mapSet_self _ _ _ _ h1⟩

theorem c3_execute_command_spec_witness :
    (execute_command c3State c3Docker 99 "i3" { command := "false", working_dir := none, environment := none }).2 = some "boom" ∧
    mapLookup (execute_command c3State c3Docker 99 "i3" { command := "false", working_dir := none, environment := none }).1.instances "i3" = some { mkInstance "i3" "c3" "stopped" with last_activity := 99 } :=
  (c3_execute_command_spec c3State c3Docker 99 "i3" { command := "false", working_dir := none, environment := none }).2 (mkInstance "i3" "c3" "stopped") { cid := "c3", labelId := some "i3", status := "running" } 1 (some "boom") (by decide) (by decide) (by decide)

/-! ## C9 — status reconciliation with an empty container reference -/

/-- C9, counterexample: an instance with an empty container reference in status
"creating" is marked "error" (and persisted) by the on-demand refresh path —
`_check_container_status` returns "error" unconditionally, so the refresh path
does not keep "creating". -/
theorem c9_counterexample :
    (mapLookup c9State.instances "i9").map (fun i => i.status) = some "creating" ∧
    (mapLookup c9State.instances "i9").map (fun i => i.container_id) = some "" ∧
    (mapLookup (refresh_instance_status c9State noDocker "i9").1.instances "i9").map (fun i => i.status) = some "error" := by
  refine ⟨by decide, by decide, by decide⟩

/-- C9 (amended): with an empty container reference, the list-time update path
(_update_instance_status) keeps status "creating" unchanged (and otherwise
forces "error" for any status other than "creating"/"error"), but
_check_container_status — the on-demand refresh path — returns "error"
unconditionally, even for a "creating" instance. -/
theorem c9_empty_ref_reconcile (st : ServiceState) (env : DockerEnv)
    (inst : PlaygroundInstance) (h : inst.container_id = "") :
    check_container_status env inst = "error" ∧
    (inst.status = "creating" → update_instance_status st env inst = (st, inst)) ∧
    (inst.status ≠ "creating" → inst.status ≠ "error" →
      (update_instance_status st env inst).2.status = "error") := by
  refine ⟨?_, ?_, ?_⟩
  · unfold check_container_status
    rw [if_pos h]
  · intro hc
    unfold update_instance_status
    rw [if_pos h]
    simp [hc]
  · intro hc he
    unfold update_instance_status
    rw [if_pos h]
    simp [hc, he]

theorem c9_empty_ref_reconcile_witness :
    check_container_status noDocker (mkInstance "i9" "" "creating") = "error" ∧
    update_instance_status c9State noDocker (mkInstance "i9" "" "creating") = (c9State, mkInstance "i9" "" "creating") :=
  ⟨(c9_empty_ref_reconcile c9State noDocker (mkInstance "i9" "" "creating") (by decide)).1,
   (c9_empty_ref_reconcile c9State noDocker (mkInstance "i9" "" "creating") (by decide)).2.1 (by decide)⟩

/-! ## C6 — provisioning failure handling -/

/-- C6: whenever a provisioning attempt fails — container creation raises, or
readiness probing fails — _create_container re-raises after leaving no entry
for the instance in the in-memory map, persisting the instance with status
"error" in the store (so the store, and only the store, keeps the failed
record and nothing stays in "creating"), and removing any container created by
this attempt from the engine. -/
theorem c6_provision_failure (st : ServiceState) (env : ProvisionEnv)
    (inst : PlaygroundInstance) (e : String)
    (h : (create_container st env inst).2 = .error e) :
    mapLookup (create_container st env inst).1.instances inst.id = none ∧
    (storeGet (create_container st env inst).1.store inst.id).map (fun i => i.status) = some "error" ∧
    (∀ c ∈ (create_container st env inst).1.engine.containers, c ∈ st.engine.containers) := by
  cases hc : env.createContainer with
  | error ec =>
    simp only [create_container, hc]
    refine ⟨mapLookup_mapErase_self _ _, ?_, fun c hm => hm⟩
    rw [storeGet_storeSave_self]
    rfl
  | ok cid =>
    cases hr : env.waitReady cid with
    | ok u =>
      simp only [create_container, hc, hr] at h
      exact Except.noConfusion h
    | error er =>
      simp only [create_container, hc, hr]
      refine ⟨mapLookup_mapErase_self _ _, ?_, ?_⟩
      · rw [storeGet_storeSave_self]
        rfl
      · intro c hm
        rcases (mem_removeContainersByCid_iff _ _ _).mp hm with ⟨hmem, hne⟩
        rcases List.mem_append.mp hmem with h1 | h2
        · exact h1
        · rw [List.mem_singleton] at h2
          subst h2
          exact absurd rfl hne

theorem c6_provision_failure_witness :
    mapLookup (create_container c6State c6Env (mkInstance "i6" "" "creating")).1.instances "i6" = none ∧
    (storeGet (create_container c6State c6Env (mkInstance "i6" "" "creating")).1.store "i6").map (fun i => i.status) = some "error" ∧
    ({ cid := "c0", labelId := none, status := "running" } : ContainerInfo) ∈ c6State.engine.containers :=
  ⟨(c6_provision_failure c6State c6Env (mkInstance "i6" "" "creating") "timeout" (by decide)).1,
   (c6_provision_failure c6State c6Env (mkInstance "i6" "" "creating") "timeout" (by decide)).2.1,
   (c6_provision_failure c6State c6Env (mkInstance "i6" "" "creating") "timeout" (by decide)).2.2 { cid := "c0", labelId := none, status := "running" } (by decide)⟩

/-! ## C8 — orphan collection -/

theorem orphanStep_containers_subset (known : List String) (e : Engine) (a x : ContainerInfo)
    (hx : x ∈ (orphanStep known e a).containers) : x ∈ e.containers := by
  cases ha : a.labelId with
  | none =>
    simp only [orphanStep, ha] at hx
    exact hx
  | some l =>
    simp only [orphanStep, ha] at hx
    by_cases hcond : l ≠ "" ∧ l ∉ known
    · rw [if_pos hcond] at hx
      exact ((mem_removeContainersByCid_iff _ _ _).mp hx).1
    · rw [if_neg hcond] at hx
      exact hx

theorem orphanStep_volumes_subset (known : List String) (e : Engine) (a : ContainerInfo)
    (v : String) (hv : v ∈ (orphanStep known e a).volumes) : v ∈ e.volumes := by
  cases ha : a.labelId with
  | none =>
    simp only [orphanStep, ha] at hv
    exact hv
  | some l =>
    simp only [orphanStep, ha] at hv
    by_cases hcond : l ≠ "" ∧ l ∉ known
    · rw [if_pos hcond] at hv
      exact ((mem_removeVolume_iff _ _ _).mp ((mem_removeVolume_iff _ _ _).mp hv).1).1
    · rw [if_neg hcond] at hv
      exact hv

theorem foldl_orphanStep_containers_subset (known : List String) (L : List ContainerInfo)
    (e : Engine) (x : ContainerInfo) (hx : x ∈ (L.foldl (orphanStep known) e).containers) :
    x ∈ e.containers := by
  induction L generalizing e with
  | nil => exact hx
  | cons a rest ih =>
    rw [List.foldl_cons] at hx
    exact orphanStep_containers_subset known e a x (ih _ hx)

theorem foldl_orphanStep_volumes_subset (known : List String) (L : List ContainerInfo)
    (e : Engine) (v : String) (hv : v ∈ (L.foldl (orphanStep known) e).volumes) :
    v ∈ e.volumes := by
  induction L generalizing e with
  | nil => exact hv
  | cons a rest ih =>
    rw [List.foldl_cons] at hv
    exact orphanStep_volumes_subset known e a v (ih _ hv)

theorem foldl_orphanStep_removes (known : List String) (L : List ContainerInfo) (e : Engine)
    (x : ContainerInfo) (l : String) (hx : x ∈ L) (hl : x.labelId = some l) (hne : l ≠ "")
    (hnk : l ∉ known) :
    x ∉ (L.foldl (orphanStep known) e).containers ∧
    ("langflow-playground-" ++ l ++ "-docker") ∉ (L.foldl (orphanStep known) e).volumes ∧
    ("langflow-playground-" ++ l ++ "-workspace") ∉ (L.foldl (orphanStep known) e).volumes := by
  induction L generalizing e with
  | nil => cases hx
  | cons a rest ih =>
    rcases List.mem_cons.mp hx with rfl | h2
    · rw [List.foldl_cons]
      have hstep : orphanStep known e x = removeOrphan e x l := by
        simp only [orphanStep, hl]
        rw [if_pos ⟨hne, hnk⟩]
      rw [hstep]
      refine ⟨?_, ?_, ?_⟩
      · intro hmem
        have h3 := foldl_orphanStep_containers_subset known rest _ x hmem
        exact ((mem_removeContainersByCid_iff _ _ _).mp h3).2 rfl
      · intro hmem
        have h3 := foldl_orphanStep_volumes_subset known rest _ _ hmem
        exact ((mem_removeVolume_iff _ _ _).mp ((mem_removeVolume_iff _ _ _).mp h3).1).2 rfl
      · intro hmem
        have h3 := foldl_orphanStep_volumes_subset known rest _ _ hmem
        exact ((mem_removeVolume_iff _ _ _).mp h3).2 rfl
    · rw [List.foldl_cons]
      exact ih (orphanStep known e a) h2

theorem foldl_orphanStep_keeps (known : List String) (L : List ContainerInfo) (e : Engine)
    (x : ContainerInfo) (hx : x ∈ e.containers)
    (hsafe : ∀ c ∈ L, ∀ l, c.labelId = some l → l ≠ "" → l ∉ known → c.cid ≠ x.cid) :
    x ∈ (L.foldl (orphanStep known) e).containers := by
  induction L generalizing e with
  | nil => exact hx
  | cons a rest ih =>
    rw [List.foldl_cons]
    apply ih
    · cases ha : a.labelId with
      | none =>
        simp only [orphanStep, ha]
        exact hx
      | some l =>
        simp only [orphanStep, ha]
        by_cases hcond : l ≠ "" ∧ l ∉ known
        · rw [if_pos hcond]
          refine (mem_removeContainersByCid_iff _ _ _).mpr ⟨hx, ?_⟩
          intro hcc
          exact hsafe a (List.mem_cons_self _ _) l ha hcond.1 hcond.2 (hcc.symm ▸ rfl)
        · rw [if_neg hcond]
          exact hx
    · intro c hc l hl h1 h2
      exact hsafe c (List.mem_cons_of_mem _ hc) l hl h1 h2

/-- C8, counterexample: a container carrying the sandbox label with the empty
string as its value is skipped by the truthiness guard on line 871 even though
its embedded id is not a key of the instances map — contradicting "removes
exactly those containers whose label-embedded instance id is not a key". -/
theorem c8_counterexample :
    "" ∉ c8State.instances.map (fun p => p.1) ∧
    emptyLabelContainer.labelId = some "" ∧
    emptyLabelContainer ∈ (cleanup_orphaned_containers c8State).engine.containers := by
  refine ⟨by decide, rfl, by decide⟩

/-- C8 (amended): assuming the engine-listed containers have pairwise distinct
ids, orphan collection removes (container plus its two named volumes) exactly
those labelled containers whose embedded id is a non-empty string that is not a
key of the in-memory map; containers whose embedded id is known are untouched,
and so are containers with a missing or empty label value. -/
theorem c8_cleanup_spec (st : ServiceState)
    (hnd : (st.engine.containers.map (fun c => c.cid)).Nodup) :
    (∀ c ∈ st.engine.containers, ∀ l, c.labelId = some l →
      l ∈ st.instances.map (fun p => p.1) →
      c ∈ (cleanup_orphaned_containers st).engine.containers) ∧
    (∀ c ∈ st.engine.containers, c.labelId = none →
      c ∈ (cleanup_orphaned_containers st).engine.containers) ∧
    (∀ c ∈ st.engine.containers, c.labelId = some "" →
      c ∈ (cleanup_orphaned_containers st).engine.containers) ∧
    (∀ c ∈ st.engine.containers, ∀ l, c.labelId = some l → l ≠ "" →
      l ∉ st.instances.map (fun p => p.1) →
      c ∉ (cleanup_orphaned_containers st).engine.containers ∧
      ("langflow-playground-" ++ l ++ "-docker") ∉ (cleanup_orphaned_containers st).engine.volumes ∧
      ("langflow-playground-" ++ l ++ "-workspace") ∉ (cleanup_orphaned_containers st).engine.volumes) := by
  have hinj : ∀ c1 ∈ st.engine.containers, ∀ c2 ∈ st.engine.containers, c1.cid = c2.cid → c1 = c2 :=
    fun c1 h1 c2 h2 heq => List.inj_on_of_nodup_map hnd h1 h2 heq
  refine ⟨?_, ?_, ?_, ?_⟩
  · intro c hc l hl hknown
    apply foldl_orphanStep_keeps _ _ _ _ hc
    intro c2 hc2 l2 hl2 hne2 hnk2 hcc
    have hceq : c2 = c := hinj c2 hc2 c hc hcc
    subst hceq
    rw [hl] at hl2
    cases hl2
    exact hnk2 hknown
  · intro c hc hl
    apply foldl_orphanStep_keeps _ _ _ _ hc
    intro c2 hc2 l2 hl2 hne2 hnk2 hcc
    have hceq : c2 = c := hinj c2 hc2 c hc hcc
    subst hceq
    rw [hl] at hl2
    cases hl2
  · intro c hc hl
    apply foldl_orphanStep_keeps _ _ _ _ hc
    intro c2 hc2 l2 hl2 hne2 hnk2 hcc
    have hceq : c2 = c := hinj c2 hc2 c hc hcc
    subst hceq
    rw [hl] at hl2
    cases hl2
    exact hne2 rfl
  · intro c hc l hl hne hnk
    exact foldl_orphanStep_removes _ _ _ _ l hc hl hne hnk

theorem c8_cleanup_spec_witness :
    keptContainer ∈ (cleanup_orphaned_containers c8State).engine.containers ∧
    emptyLabelContainer ∈ (cleanup_orphaned_containers c8State).engine.containers ∧
    (orphanContainer ∉ (cleanup_orphaned_containers c8State).engine.containers ∧
     ("langflow-playground-" ++ "gone" ++ "-docker") ∉ (cleanup_orphaned_containers c8State).engine.volumes ∧
     ("langflow-playground-" ++ "gone" ++ "-workspace") ∉ (cleanup_orphaned_containers c8State).engine.volumes) :=
  ⟨(c8_cleanup_spec c8State (by decide)).1 keptContainer (by decide) "i8" (by decide) (by decide),
   (c8_cleanup_spec c8State (by decide)).2.2.1 emptyLabelContainer (by decide) (by decide),
   (c8_cleanup_spec c8State (by decide)).2.2.2 orphanContainer (by decide) "gone" (by decide) (by decide) (by decide)⟩

/-! ## C2 — two-step workflow with a non-zero exit -/

/-- C2, counterexample: with the claim's workflow — command "echo A", then a
command exiting 1 — the run finishes and is saved with status "success", both
logs are "success", and the second step's nonzero exit shows up only as the
"[exit_code]=1" marker inside its output; no log gets status "error". -/
theorem c2_counterexample :
    (run_workflow_sync (envWith "" 1) twoStepWorkflow none "r1" none).1.status = "success" ∧
    ((run_workflow_sync (envWith "" 1) twoStepWorkflow none "r1" none).1.logs.map (fun l => l.status)) = ["success", "success"] ∧
    ((run_workflow_sync (envWith "" 1) twoStepWorkflow none "r1" none).1.logs.map (fun l => l.output)) = [some "A", some "[exit_code]=1"] ∧
    ((run_workflow_sync (envWith "" 1) twoStepWorkflow none "r1" none).2.saved.map (fun r => r.status)) = ["success"] := by
  refine ⟨by decide, by decide, by decide, by decide⟩

/-- C2 (amended): for the two-step workflow (command "echo A", then a command
that exits with any non-zero code), run_workflow_sync returns and saves a run
with status "success"; both steps are attempted and logged "success", and the
non-zero exit is encoded as an explicit "[exit_code]=" marker appended to the
second step's output rather than as an error status.  (A step is logged
"error" — halting the run — only when its execution raises, e.g. the assert on
an empty command; a non-zero exit code does not raise.) -/
theorem c2_two_step_nonzero_exit (e2out : String) (rc : Int) (hrc : rc ≠ 0) :
    (run_workflow_sync (envWith e2out rc) twoStepWorkflow none "r1" none).1.status = "success" ∧
    ((run_workflow_sync (envWith e2out rc) twoStepWorkflow none "r1" none).1.logs.map (fun l => l.status)) = ["success", "success"] ∧
    ((run_workflow_sync (envWith e2out rc) twoStepWorkflow none "r1" none).2.saved.map (fun r => r.status)) = ["success"] ∧
    run_command_host (spawnWith e2out rc) "false" none 90 = pyStrip ((e2out ++ "") ++ "\n[exit_code]=" ++ toString rc) := by
  refine ⟨?_, ?_, ?_, ?_⟩
  · simp [run_workflow_sync, runSteps, stepBody, twoStepWorkflow, stepEchoA, stepFail, envWith, tick, publishEvent, outerHandler, ctxSet, ctxMerge, run_command]
  · simp [run_workflow_sync, runSteps, stepBody, twoStepWorkflow, stepEchoA, stepFail, envWith, tick, publishEvent, outerHandler, ctxSet, ctxMerge, run_command]
  · simp [run_workflow_sync, runSteps, stepBody, twoStepWorkflow, stepEchoA, stepFail, envWith, tick, publishEvent, outerHandler, ctxSet, ctxMerge, run_command]
  · simp [run_command_host, spawnWith, hrc]

theorem c2_two_step_nonzero_exit_witness :
    (run_workflow_sync (envWith "" 1) twoStepWorkflow none "rW" none).1.status = "success" ∧
    ((run_workflow_sync (envWith "" 1) twoStepWorkflow none "rW" none).1.logs.map (fun l => l.status)) = ["success", "success"] ∧
    ((run_workflow_sync (envWith "" 1) twoStepWorkflow none "rW" none).2.saved.map (fun r => r.status)) = ["success"] ∧
    run_command_host (spawnWith "" 1) "false" none 90 = pyStrip (("" ++ "") ++ "\n[exit_code]=" ++ toString (1 : Int)) :=
  c2_two_step_nonzero_exit "" 1 (by decide)

/-! ## C10 — finalization of returned logs -/

/-- C10, counterexample: when the publish dispatch for the just-appended
"running" log (workflow_engine.py lines 66-76) raises — the `asyncio.run` call
inside the `except RuntimeError:` handler escapes the sibling
`except Exception:` clause — the outer handler (lines 190-196) returns the run
with that log still in status "running" and finished_at None, refuting the
claimed invariant. -/
theorem c10_counterexample :
    ((run_workflow_sync c10FailEnv oneStepWorkflow none "r3" none).1.logs.map (fun l => l.status)) = ["running"] ∧
    ((run_workflow_sync c10FailEnv oneStepWorkflow none "r3" none).1.logs.map (fun l => l.finished_at)) = [none] ∧
    (run_workflow_sync c10FailEnv oneStepWorkflow none "r3" none).1.status = "error" := by
  refine ⟨by decide, by decide, by decide⟩

theorem runSteps_logs_finalized (env : WorkflowEnv) (rid : String) (pid : Option String)
    (total : Nat) (steps : List PentestStep) (idx : Nat) (result : RunResult) (est : EngineSt)
    (hpub : ∀ n, env.publishRaises n = none)
    (hres : ∀ l ∈ result.logs, l.finished_at ≠ none ∧ (l.status = "success" ∨ l.status = "error")) :
    ∀ l ∈ (runSteps env rid pid total steps idx result est).1.logs,
      l.finished_at ≠ none ∧ (l.status = "success" ∨ l.status = "error") := by
  induction steps generalizing idx result est with
  | nil =>
    intro l hl
    simp only [runSteps] at hl
    exact hres l hl
  | cons step rest ih =>
    intro l hl
    cases hsb : stepBody env pid result.context step with
    | ok pr =>
      obtain ⟨out, ctx1⟩ := pr
      simp only [runSteps, hsb, publishEvent, hpub, tick] at hl
      refine ih (idx + 1) _ _ ?_ l hl
      intro l2 hl2
      rcases List.mem_append.mp hl2 with h1 | h2
      · exact hres l2 h1
      · rw [List.mem_singleton] at h2
        subst h2
        exact ⟨by simp, Or.inl rfl⟩
    | error e =>
      simp only [runSteps, hsb, publishEvent, hpub, tick] at hl
      rcases List.mem_append.mp hl with h1 | h2
      · exact hres l h1
      · rw [List.mem_singleton] at h2
        subst h2
        exact ⟨by simp, Or.inr rfl⟩

/-- C10 (amended): provided no stream-publish dispatch raises (and with no
external on_log callback), every StepLog in the returned run's logs has a
non-null finished_at and a status that is "success" or "error".  When a
publish dispatch does raise, the outer handler returns the run as it stands
with status "error" — and a raise at the publish just after the log was
appended leaves that log in status "running" with finished_at None (see the
counterexample). -/
theorem c10_logs_finalized (env : WorkflowEnv) (workflow : Workflow) (context : Option Context)
    (rid : String) (pid : Option String) (hpub : ∀ n, env.publishRaises n = none) :
    ∀ l ∈ (run_workflow_sync env workflow context rid pid).1.logs,
      l.finished_at ≠ none ∧ (l.status = "success" ∨ l.status = "error") := by
  intro l hl
  simp only [run_workflow_sync, tick] at hl
  exact runSteps_logs_finalized env rid pid workflow.steps.length workflow.steps 1 _ _ hpub (by simp) l hl

theorem c10_logs_finalized_witness :
    ((run_workflow_sync (envWith "" 1) oneStepWorkflow none "r2" none).1.logs.getD 0 defaultStepLog).finished_at ≠ none ∧
    (((run_workflow_sync (envWith "" 1) oneStepWorkflow none "r2" none).1.logs.getD 0 defaultStepLog).status = "success" ∨
     ((run_workflow_sync (envWith "" 1) oneStepWorkflow none "r2" none).1.logs.getD 0 defaultStepLog).status = "error") :=
  c10_logs_finalized (envWith "" 1) oneStepWorkflow none "r2" none (fun _ => rfl) _ (by decide)

end LangFlow
